import Mathlib

/-!
Verification development for the SmartOCR repository.

The Python sources are shallowly embedded as Lean definitions:

* `smartocr.py`
  - `ocr_page`'s error convention and the response-shape normalization and
    text cleanup inside `_ocr_worker_thread` (lines 574-592) become
    `Prediction`, `extractText`, `cleanupText`, `finalPageText`, `pageBlock`.
  - the batch loop of `_ocr_worker_thread` (lines 533-620) becomes
    `processPages` / `runBatches` / `ocrWorker`, with the cooperative
    cancellation event modelled by the read index at which the latch is
    first observed set (`isSet`).
  - the page-range validation of `PDFPreviewer.run_ocr` (lines 474-487)
    becomes `run_ocr_validate`.
* `core types/document_class.py` becomes `DocumentClass` with
  `add_object`, `delete_object`, `get_object`, `delete_page_objects`,
  `has_pages`, `add_page` and `detect_type`.
-/

deriving instance DecidableEq for Except

/-! ## Python string primitives

Character-list implementations of the Python `str` operations the sources
use, so that every definition evaluates by kernel reduction. -/

/-- Python `s.startswith(pre)`. -/
def pyStartsWith (s pre : String) : Bool :=
  pre.toList.isPrefixOf s.toList

/-- Python `s.endswith(suf)`. -/
def pyEndsWith (s suf : String) : Bool :=
  suf.toList.reverse.isPrefixOf s.toList.reverse

/-- Python `s.strip()` (whitespace on both ends). -/
def pyStrip (s : String) : String :=
  (((s.toList.dropWhile Char.isWhitespace).reverse.dropWhile
      Char.isWhitespace).reverse).asString

/-- Python `s[n:]`. -/
def pyDrop (s : String) (n : Nat) : String :=
  (s.toList.drop n).asString

/-- Python `s[:-n]` for positive `n`. -/
def pyDropRight (s : String) (n : Nat) : String :=
  (s.toList.take (s.toList.length - n)).asString

/-! ## Recognition responses and normalization (smartocr.py lines 574-592) -/

/-- Modelled from the spec: the `message` member of an OpenAI-style choice;
`content = getattr(message, 'content', None)` yields `none` when the
attribute is missing or not a string. -/
structure ChoiceMsg where
  content : Option String
deriving DecidableEq

/-- One element of a `choices` list.  `message`/`text` are `none` when the
duck-typed attribute is absent; `srepr` is the Python `str()` of the choice,
used as the last fallback (line 583). -/
structure Choice where
  message : Option ChoiceMsg
  text : Option String
  srepr : String
deriving DecidableEq

/-- A backend response as classified by lines 574-585 of `smartocr.py`:
either a plain Python string, or a duck-typed object that may expose
`.content`, `.text` and `.choices` attributes (each `none` when the
attribute is absent or not of the probed type); `srepr` is the object's
`str()` used by the stringification fallback (line 585). -/
inductive Prediction where
  | pyStr (s : String)
  | obj (content : Option String) (text : Option String)
      (choices : Option (List Choice)) (srepr : String)
deriving DecidableEq

/-- `ocr_page` (line 103): any exception is converted to the string
`"Error: {e}"`. -/
def ocrPageError (msg : String) : Prediction :=
  .pyStr ("Error: " ++ msg)

/-- Lines 580-583: read `first_choice.message.content`; if that is falsy
(absent or empty) fall back to `first_choice.text`, else to
`str(first_choice)`. -/
def choiceText (fc : Choice) : String :=
  match fc.message.bind (fun m => m.content) with
  | some c => if c = "" then (match fc.text with
      | some t => t
      | none => fc.srepr)
    else c
  | none => match fc.text with
    | some t => t
    | none => fc.srepr

/-- Lines 574-585: shape detection in priority order.  Returns the raw page
text together with the `batch_had_processing_errors` contribution of this
page (set only when the result is an `ocr_page` error string, line 574). -/
def extractText : Prediction → String × Bool
  | .pyStr s => if pyStartsWith s "Error:" then (s, true) else (s, false)
  | .obj (some c) _ _ _ => (c, false)
  | .obj none (some t) _ _ => (t, false)
  | .obj none none (some (fc :: _)) _ => (choiceText fc, false)
  | .obj none none (some []) srepr => (srepr, false)
  | .obj none none none srepr => (srepr, false)

/-- Lines 588-592: cleanup is skipped entirely for error strings; otherwise
the text is stripped, a leading triple-backtick language tag and leading or
trailing triple-backtick fences are removed, re-stripping after each cut. -/
def cleanupText (s : String) : String :=
  if pyStartsWith s "Error:" then s
  else
    let s1 := pyStrip s
    let s2 := if pyStartsWith s1 "```text" then pyStrip (pyDrop s1 7) else s1
    let s3 := if pyStartsWith s2 "```" then pyStrip (pyDrop s2 3) else s2
    if pyEndsWith s3 "```" then pyStrip (pyDropRight s3 3) else s3

/-- The page text that reaches the result list: extraction followed by
cleanup (lines 574-592). -/
def finalPageText (p : Prediction) : String :=
  cleanupText (extractText p).1

/-- Line 600: the labeled block appended for one page. -/
def pageBlock (n : Nat) (p : Prediction) : String :=
  "--- Page " ++ toString n ++ " ---\n" ++ finalPageText p ++ "\n"

/-! ## Batch pipeline engine (`_ocr_worker_thread`, smartocr.py lines 519-624)

The cancellation latch (`threading.Event`) is set once and never cleared,
so a whole run is determined by the index of the first `is_set()` read that
observes it: reads are numbered `0, 1, 2, ...` in execution order and a
latch value `some c` means every read with index `≥ c` returns true
(`none`: the latch is never set during the run). -/

/-- One `cancel_event.is_set()` read, at read index `t`. -/
def isSet : Option Nat → Nat → Bool
  | none, _ => false
  | some c, t => c ≤ t

/-- The engine's external collaborators: `convert_from_path` for a page
range (images are identified by `Nat` handles) and the recognition backend
behind `ocr_page` (already folded with its exception-to-`"Error: ..."`
conversion, so it yields a `Prediction`). -/
structure OcrEnv where
  render : Nat → Nat → Except String (List Nat)
  ocr : Nat → Prediction

/-- Lines 542-545: a `convert_from_path` result with the
`if not current_batch_images: raise ValueError(...)` check folded in. -/
def renderBatch (env : OcrEnv) (bs be : Nat) : Except String (List Nat) :=
  match env.render bs be with
  | .error e => .error e
  | .ok imgs => if imgs.isEmpty then .error "pdf2image returned no images." else .ok imgs

/-- Result of the inner page loop (lines 560-601). -/
structure PageLoop where
  blocks : List String
  cancelled : Bool
  hadErrors : Bool
  time : Nat
  processed : Nat
deriving DecidableEq

/-- Lines 560-601: per page, a checkpoint before processing (561), one
before (569) and one after (571) the blocking `ocr_page` call; a detected
cancellation breaks out immediately, discarding the page.  Otherwise the
extracted and cleaned text is appended as a labeled block.  `i` is the
`enumerate` index, `t` the next read index, `pr` the
`processed_page_count_in_run` counter. -/
def processPages (env : OcrEnv) (cv : Option Nat) (bstart : Nat) :
    List Nat → Nat → Nat → Nat → PageLoop
  | [], _, t, pr => ⟨[], false, false, t, pr⟩
  | img :: rest, i, t, pr =>
    if isSet cv t then ⟨[], true, false, t + 1, pr⟩
    else if isSet cv (t + 1) then ⟨[], true, false, t + 2, pr + 1⟩
    else
      let pred := env.ocr img
      if isSet cv (t + 2) then ⟨[], true, false, t + 3, pr + 1⟩
      else
        let res := extractText pred
        let rest' := processPages env cv bstart rest (i + 1) (t + 3) (pr + 1)
        ⟨pageBlock (bstart + i) pred :: rest'.blocks, rest'.cancelled,
         res.2 || rest'.hadErrors, rest'.time, rest'.processed⟩

/-- Result of the outer batch loop (lines 533-615). -/
structure BatchLoop where
  outs : List String
  cancelled : Bool
  anySuccess : Bool
  cstatus : String
  time : Nat
  processed : Nat
deriving DecidableEq

/-- Lines 533-615: per batch, a checkpoint before the render call (534); a
render failure checks the latch again (547) and otherwise appends an error
placeholder for the batch and continues; a successful render runs the page
loop and, only if it was not interrupted, commits the joined block list as
one chunk (604-609), recording the cumulative
`any_batch_processed_successfully` flag.  `outs` is the ordered list of
texts appended to the results widget; `cstatus` is the `final_status` set
at the cancellation site. -/
def runBatches (env : OcrEnv) (cv : Option Nat) :
    List (Nat × Nat) → Nat → Nat → BatchLoop
  | [], t, pr => ⟨[], false, false, "", t, pr⟩
  | (bs, be) :: rest, t, pr =>
    if isSet cv t then ⟨[], true, false, "OCR process cancelled by user.", t + 1, pr⟩
    else
      match renderBatch env bs be with
      | .error e =>
        if isSet cv (t + 1) then ⟨[], true, false, "OCR cancelled.", t + 2, pr⟩
        else
          let errText := "\n--- ERROR LOADING BATCH: Pages " ++ toString bs ++ "-"
            ++ toString be ++ " ---\nError: " ++ e ++ "\n"
          let r := runBatches env cv rest (t + 2) (pr + (be - bs + 1))
          ⟨errText :: r.outs, r.cancelled, r.anySuccess, r.cstatus, r.time, r.processed⟩
      | .ok imgs =>
        let pl := processPages env cv bs imgs 0 (t + 1) pr
        if pl.cancelled then ⟨[], true, false, "OCR cancelled.", pl.time, pl.processed⟩
        else
          let r := runBatches env cv rest pl.time pl.processed
          if pl.blocks.isEmpty then
            ⟨r.outs, r.cancelled, r.anySuccess, r.cstatus, r.time, r.processed⟩
          else
            ⟨(String.intercalate "\n" pl.blocks) :: r.outs, r.cancelled,
             (!pl.hadErrors) || r.anySuccess, r.cstatus, r.time, r.processed⟩

/-- Number of iterations of `range(start_page, end_page + 1, batch_size)`
(line 533). -/
def numBatches (sp ep bsz : Nat) : Nat :=
  (ep + 1 - sp + (bsz - 1)) / bsz

/-- The batch boundaries produced by lines 533-536:
`batch_end_page = min(batch_start_page + batch_size - 1, end_page)`. -/
def batches (sp ep bsz : Nat) : List (Nat × Nat) :=
  (List.range' sp (numBatches sp ep bsz) bsz).map (fun b => (b, min (b + bsz - 1) ep))

/-- The pages of one batch, in order. -/
def pagesOf (b : Nat × Nat) : List Nat :=
  List.range' b.1 (b.2 + 1 - b.1)

/-- Concatenation of the pages of a batch list, in processing order. -/
def flatPages : List (Nat × Nat) → List Nat
  | [] => []
  | b :: rest => pagesOf b ++ flatPages rest

/-- Terminal result of one run of `_ocr_worker_thread`. -/
structure RunOutcome where
  output : List String
  cancelled : Bool
  anySuccess : Bool
  finalStatus : String
  processed : Nat
deriving DecidableEq

/-- The whole worker (lines 519-624): partition the range, run the batch
loop, and compute `final_status` (617-620). -/
def ocrWorker (env : OcrEnv) (startPage endPage batchSize : Nat)
    (cv : Option Nat) : RunOutcome :=
  let r := runBatches env cv (batches startPage endPage batchSize) 0 0
  let status :=
    if r.cancelled then r.cstatus
    else if r.anySuccess then "OCR process completed."
    else "OCR finished, but encountered errors or no text was processed."
  ⟨r.outs, r.cancelled, r.anySuccess, status, r.processed⟩

/-- A renderer that returns one image handle per requested page, numbered
like the pages (the success behaviour of `convert_from_path`). -/
def honestRender (env : OcrEnv) : Prop :=
  ∀ a b : Nat, a ≤ b → env.render a b = .ok (List.range' a (b + 1 - a))

/-- The committed chunk of a fully processed batch under an honest
renderer. -/
def chunkOf (env : OcrEnv) (b : Nat × Nat) : String :=
  String.intercalate "\n" ((pagesOf b).map (fun p => pageBlock p (env.ocr p)))

/-- Whether a batch raises no per-page error flag, i.e. contributes
`any_batch_processed_successfully` when committed. -/
def cleanBatch (env : OcrEnv) (b : Nat × Nat) : Bool :=
  !((pagesOf b).any (fun p => (extractText (env.ocr p)).2))

/-! ## Concrete environments used by witnesses and counterexamples -/

/-- Two-page environment for the cancellation scenario: an honest renderer
and a backend that reads the page number. -/
def env1 : OcrEnv where
  render := fun a b => .ok (List.range' a (b + 1 - a))
  ocr := fun p => .pyStr ("P" ++ toString p)

/-- Environment whose backend fails for page 7 only. -/
def envC3 : OcrEnv where
  render := fun a b => .ok (List.range' a (b + 1 - a))
  ocr := fun p =>
    if p = 7 then ocrPageError "recognition backend failed"
    else .pyStr ("text" ++ toString p)

/-- Environment whose backend fails for page 2 only. -/
def envC6 : OcrEnv where
  render := fun a b => .ok (List.range' a (b + 1 - a))
  ocr := fun p => if p = 2 then ocrPageError "boom" else .pyStr "ok"

/-! ## Document model (`core types/document_class.py`) -/

/-- Modelled from the spec: the `ExtractedObject` record (`ObjectType` is
referenced by `document_class.py` but its class definition is not in the
sources): a unique immutable `index`, a nullable owning `page`, the
recognized `content` payload and an optional bounding `coordinates`
4-tuple. -/
structure ObjectType where
  index : Nat
  page : Option Int
  content : String
  coordinates : Option (List Int)
deriving DecidableEq

/-- The `DocumentClass.__init__` state: `file_type`, `objects`,
`_obj_index`, `_pages`. -/
structure DocumentClass where
  file_type : Option String
  objects : List ObjectType
  obj_index : Nat
  pages : Nat
deriving DecidableEq

/-- A fresh `DocumentClass()`. -/
def emptyDoc : DocumentClass :=
  ⟨none, [], 0, 0⟩

/-- `DocumentClass.add_page` (line 21). -/
def add_page (d : DocumentClass) : DocumentClass :=
  { d with pages := d.pages + 1 }

/-- `DocumentClass.add_object` (lines 24-32): build an `ObjectType` from
the current `_obj_index`, append it, then increment the counter. -/
def add_object (d : DocumentClass) (page : Option Int) (text : String)
    (coordinates : Option (List Int) := none) : DocumentClass :=
  { d with
    objects := d.objects ++ [⟨d.obj_index, page, text, coordinates⟩],
    obj_index := d.obj_index + 1 }

/-- `DocumentClass.get_object` (lines 103-108): first object with the
index, else `None`. -/
def get_object (d : DocumentClass) (index : Nat) : Option ObjectType :=
  d.objects.find? (fun o => o.index = index)

/-- Python `list.remove`: drop the first element equal to `x`. -/
def listRemoveFirst : List ObjectType → ObjectType → List ObjectType
  | [], _ => []
  | a :: rest, x => if a = x then rest else a :: listRemoveFirst rest x

/-- The `for obj in self.objects: ... self.objects.remove(obj)` loop of
`delete_object` (lines 114-116), with Python's mutate-while-iterating
semantics: the hidden cursor `i` advances every iteration even when the
current element was removed.  `fuel` bounds the iteration count; the
initial list length always suffices because `i` grows each step while the
list only shrinks. -/
def removeLoopAux : Nat → List ObjectType → Nat → Nat → List ObjectType
  | 0, l, _, _ => l
  | fuel + 1, l, idx, i =>
    if h : i < l.length then
      let obj := l.get ⟨i, h⟩
      if obj.index = idx then removeLoopAux fuel (listRemoveFirst l obj) idx (i + 1)
      else removeLoopAux fuel l idx (i + 1)
    else l

/-- `DocumentClass.delete_object` (lines 111-118): remove every object
whose index matches (via the iterating loop) and return how many were
removed. -/
def delete_object (d : DocumentClass) (index : Nat) : DocumentClass × Nat :=
  let before := d.objects.length
  let objs := removeLoopAux d.objects.length d.objects index 0
  ({ d with objects := objs }, before - objs.length)

/-- `DocumentClass.has_pages` (lines 131-133). -/
def has_pages (d : DocumentClass) : Bool :=
  d.pages > 0

/-- `DocumentClass.delete_page_objects` (lines 121-129): return the
document unchanged when it has no pages, else keep only the objects whose
`page` differs from the argument. -/
def delete_page_objects (d : DocumentClass) (doc_page : Int) : DocumentClass :=
  if !has_pages d then d
  else { d with objects := d.objects.filter (fun o => o.page ≠ some doc_page) }

/-- One call against the document: `add_object` (with its arguments) or
`delete_object`. -/
inductive DocOp where
  | addObj (page : Option Int) (text : String) (coordinates : Option (List Int))
  | delObj (index : Nat)

/-- Apply one operation. -/
def applyOp (d : DocumentClass) : DocOp → DocumentClass
  | .addObj p t c => add_object d p t c
  | .delObj i => (delete_object d i).1

/-- Apply a call sequence in order. -/
def applyOps (d : DocumentClass) : List DocOp → DocumentClass
  | [] => d
  | op :: rest => applyOps (applyOp d op) rest

/-- The `index` values assigned by the `add_object` calls of a sequence,
in call order. -/
def assignTrace (d : DocumentClass) : List DocOp → List Nat
  | [] => []
  | .addObj p t c :: rest => d.obj_index :: assignTrace (add_object d p t c) rest
  | .delObj i :: rest => assignTrace ((delete_object d i).1) rest

/-! ## Format detection (`DocumentClass.detect_type`, lines 34-90) -/

/-- Availability and results of the external page-count collaborators that
`detect_type` imports lazily: `pdf2image`, `python-pptx`, `Pillow`, and the
`docx2pdf`-then-`fitz` conversion fallback (whose `docxConvertOk` covers
the whole `try` body, since that branch catches every exception). -/
structure DetectEnv where
  pdf2imageAvailable : Bool
  pdfPageCount : Nat
  pptxAvailable : Bool
  pptxSlideCount : Nat
  pillowAvailable : Bool
  tiffFrameCount : Nat
  docxConvertOk : Bool
  docxPageCount : Nat

/-- `pathlib.Path(p).suffix`: the part of the final component from its
last dot, empty when the dot is missing, leading or trailing. -/
def pathSuffix (p : String) : String :=
  let cs := (p.toList.reverse.takeWhile (fun c => c ≠ '/')).reverse
  let n := cs.length
  let dotIdxs := (List.range n).filter (fun i => cs.getD i ' ' = '.')
  match dotIdxs.getLast? with
  | some i => if 0 < i ∧ i + 1 < n then (cs.drop i).asString else ""
  | none => ""

/-- Python `s.lstrip('.')`. -/
def lstripDots (s : String) : String :=
  (s.toList.dropWhile (fun ch => ch = '.')).asString

/-- Python `s.lower()` (ASCII; extensions only). -/
def pyLower (s : String) : String :=
  (s.toList.map Char.toLower).asString

/-- Python `s.upper()` (ASCII; extensions only). -/
def pyUpper (s : String) : String :=
  (s.toList.map Char.toUpper).asString

/-- `DocumentClass.detect_type` (lines 34-90), returning the
`(file_type, pages)` it stores, or the message of the `RuntimeError` it
raises when a recognized format's import fails.  The DOCX/ODT/RTF branch
catches every exception and degrades to 0 pages (lines 83-85); the final
branch uppercases the stripped extension, defaulting to `UNKNOWN` when it
is empty (lines 88-90). -/
def detect_type (env : DetectEnv) (file_path : String) : Except String (String × Nat) :=
  let ext := pyLower (pathSuffix file_path)
  if ext = ".pdf" then
    if env.pdf2imageAvailable then .ok ("PDF", env.pdfPageCount)
    else .error "Install pdf2image and Poppler to handle PDFs."
  else if ext = ".pptx" then
    if env.pptxAvailable then .ok ("PPTX", env.pptxSlideCount)
    else .error "Install python-pptx to handle PPTX."
  else if ext = ".tif" ∨ ext = ".tiff" then
    if env.pillowAvailable then .ok ("TIFF", env.tiffFrameCount)
    else .error "Install Pillow to handle TIFF."
  else if ext = ".docx" ∨ ext = ".odt" ∨ ext = ".rtf" then
    if env.docxConvertOk then .ok (pyUpper (lstripDots ext), env.docxPageCount)
    else .ok (pyUpper (lstripDots ext), 0)
  else
    let ft := pyUpper (lstripDots ext)
    .ok (if ft = "" then "UNKNOWN" else ft, 0)

/-- The extensions `detect_type` recognizes. -/
def recognizedExt (ext : String) : Bool :=
  ext = ".pdf" ∨ ext = ".pptx" ∨ ext = ".tif" ∨ ext = ".tiff"
    ∨ ext = ".docx" ∨ ext = ".odt" ∨ ext = ".rtf"

/-- A `DetectEnv` with every collaborator unavailable. -/
def envNoTools : DetectEnv :=
  ⟨false, 0, false, 0, false, 0, false, 0⟩

/-! ## Range validation (`PDFPreviewer.run_ocr`, smartocr.py lines 469-487) -/

/-- Python `int(s)` on an already-stripped string: digits after the first
one may be separated by single underscores. `digitsValAux` consumes the
characters after a leading digit. -/
def digitsValAux : List Char → Nat → Option Nat
  | [], acc => some acc
  | '_' :: c :: rest, acc =>
    if c.isDigit then digitsValAux rest (acc * 10 + (c.toNat - 48)) else none
  | ['_'], _ => none
  | c :: rest, acc =>
    if c.isDigit then digitsValAux rest (acc * 10 + (c.toNat - 48)) else none

/-- Value of an unsigned Python integer literal. -/
def digitsVal : List Char → Option Nat
  | [] => none
  | c :: rest => if c.isDigit then digitsValAux rest (c.toNat - 48) else none

/-- Python `int(s)` for a stripped string with an optional sign. -/
def pyInt (s : String) : Option Int :=
  match s.toList with
  | '+' :: rest => (digitsVal rest).map (fun n => (n : Int))
  | '-' :: rest => (digitsVal rest).map (fun n => -(n : Int))
  | cs => (digitsVal cs).map (fun n => (n : Int))

/-- The validation of `run_ocr` (lines 475-487) for a document whose page
count is `totalPages`: reject a zero page count; with both entries empty
default to the full range `[1, totalPages]`; reject a half-filled pair,
non-integer entries, out-of-range pages and an inverted range; otherwise
accept the parsed pair. -/
def run_ocr_validate (totalPages : Nat) (fromEntry toEntry : String) :
    Except String (Int × Int) :=
  if totalPages = 0 then
    .error "Cannot determine total pages or PDF has 0 pages. Please reload."
  else
    let fromS := pyStrip fromEntry
    let toS := pyStrip toEntry
    if fromS = "" ∧ toS = "" then .ok (1, (totalPages : Int))
    else if fromS = "" ∨ toS = "" then
      .error "Both 'from' and 'to' must be filled or both empty."
    else
      match pyInt fromS, pyInt toS with
      | some s, some e =>
        if ¬(1 ≤ s ∧ s ≤ (totalPages : Int)) then
          .error ("'From' page must be 1-" ++ toString totalPages ++ ".")
        else if ¬(1 ≤ e ∧ e ≤ (totalPages : Int)) then
          .error ("'To' page must be 1-" ++ toString totalPages ++ ".")
        else if s > e then .error "'From' page > 'to' page."
        else .ok (s, e)
      | _, _ => .error "Page numbers must be integers."


/-! ## Lemmas about the batch partition -/

theorem numBatches_zero {sp ep bsz : Nat} (hb : 1 ≤ bsz) (h : ¬ sp ≤ ep) :
    numBatches sp ep bsz = 0 := by
  unfold numBatches
  have h1 : ep + 1 - sp = 0 := by omega
  rw [h1]
  exact Nat.div_eq_of_lt (by omega)

theorem numBatches_succ {sp ep bsz : Nat} (hb : 1 ≤ bsz) (h : sp ≤ ep) :
    numBatches sp ep bsz = numBatches (sp + bsz) ep bsz + 1 := by
  unfold numBatches
  have h1 : ep + 1 - sp + (bsz - 1) = (ep - sp) + bsz := by omega
  rw [h1, Nat.add_div_right _ (by omega)]
  have h2 : (ep - sp) / bsz = (ep + 1 - (sp + bsz) + (bsz - 1)) / bsz := by
    by_cases hc : bsz ≤ ep + 1 - sp
    · congr 1
      omega
    · rw [Nat.div_eq_of_lt (by omega), Nat.div_eq_of_lt (by omega)]
  rw [h2]

theorem batches_nil {sp ep bsz : Nat} (hb : 1 ≤ bsz) (h : ¬ sp ≤ ep) :
    batches sp ep bsz = [] := by
  unfold batches
  rw [numBatches_zero hb h]
  rfl

theorem batches_cons {sp ep bsz : Nat} (hb : 1 ≤ bsz) (h : sp ≤ ep) :
    batches sp ep bsz
      = (sp, min (sp + bsz - 1) ep) :: batches (sp + bsz) ep bsz := by
  unfold batches
  rw [numBatches_succ hb h, List.range'_succ, List.map_cons]

theorem batches_spec {bsz : Nat} (hb : 1 ≤ bsz) :
    ∀ k sp ep, numBatches sp ep bsz = k →
      flatPages (batches sp ep bsz) = List.range' sp (ep + 1 - sp) ∧
      ∀ b ∈ batches sp ep bsz,
        sp ≤ b.1 ∧ b.1 ≤ b.2 ∧ b.2 ≤ ep ∧ b.2 + 1 - b.1 ≤ bsz := by
  intro k
  induction k with
  | zero =>
    intro sp ep hk
    have h : ¬ sp ≤ ep := by
      intro hle
      rw [numBatches_succ hb hle] at hk
      omega
    rw [batches_nil hb h]
    refine ⟨?_, by intro b hbm; cases hbm⟩
    have h1 : ep + 1 - sp = 0 := by omega
    rw [h1]
    rfl
  | succ k ih =>
    intro sp ep hk
    have h : sp ≤ ep := by
      by_contra hc
      rw [numBatches_zero hb hc] at hk
      omega
    have hk' : numBatches (sp + bsz) ep bsz = k := by
      rw [numBatches_succ hb h] at hk
      omega
    obtain ⟨ihcov, ihmem⟩ := ih (sp + bsz) ep hk'
    rw [batches_cons hb h]
    constructor
    · show pagesOf (sp, min (sp + bsz - 1) ep) ++ flatPages (batches (sp + bsz) ep bsz)
        = List.range' sp (ep + 1 - sp)
      rw [ihcov]
      unfold pagesOf
      by_cases hc : sp + bsz - 1 ≤ ep
      · rw [Nat.min_eq_left hc]
        have h1 : sp + bsz - 1 + 1 - sp = bsz := by omega
        have h2 : ep + 1 - (sp + bsz) = ep + 1 - sp - bsz := by omega
        rw [h1, h2, List.range'_append_1 sp bsz (ep + 1 - sp - bsz)]
        congr 1
        omega
      · rw [Nat.min_eq_right (by omega)]
        have h2 : ep + 1 - (sp + bsz) = 0 := by omega
        rw [h2]
        simp
    · intro b hbm
      rcases List.mem_cons.mp hbm with rfl | hbm2
      · refine ⟨?_, ?_, ?_, ?_⟩ <;> simp <;> omega
      · obtain ⟨hb1, hb2, hb3, hb4⟩ := ihmem b hbm2
        exact ⟨by omega, hb2, hb3, hb4⟩

/-! ## Lemmas about the page and batch loops -/

theorem processPages_none_struct (env : OcrEnv) (b : Nat) :
    ∀ n s i t pr, s = b + i →
      processPages env none b (List.range' s n) i t pr =
        ⟨(List.range' s n).map (fun p => pageBlock p (env.ocr p)), false,
         (List.range' s n).any (fun p => (extractText (env.ocr p)).2),
         t + 3 * n, pr + n⟩ := by
  intro n
  induction n with
  | zero =>
    intro s i t pr hs
    simp [processPages]
  | succ n ih =>
    intro s i t pr hs
    subst hs
    rw [List.range'_succ]
    simp only [processPages, isSet, Bool.false_eq_true, if_false]
    rw [ih (b + i + 1) (i + 1) (t + 3) (pr + 1) (by omega)]
    simp only [List.map_cons, List.any_cons, PageLoop.mk.injEq, true_and, and_true]
    omega

theorem processPages_none_flat (env : OcrEnv) (b : Nat) :
    ∀ imgs i t pr, (processPages env none b imgs i t pr).cancelled = false := by
  intro imgs
  induction imgs with
  | nil => intro i t pr; rfl
  | cons img rest ih =>
    intro i t pr
    simp only [processPages, isSet, if_false, Bool.false_eq_true]
    exact ih (i + 1) (t + 3) (pr + 1)

theorem runBatches_none_spec (env : OcrEnv) (hr : honestRender env) :
    ∀ bsl : List (Nat × Nat), (∀ b ∈ bsl, b.1 ≤ b.2) → ∀ t pr,
      (runBatches env none bsl t pr).outs = bsl.map (chunkOf env) ∧
      (runBatches env none bsl t pr).cancelled = false ∧
      (runBatches env none bsl t pr).anySuccess = bsl.any (cleanBatch env) := by
  intro bsl
  induction bsl with
  | nil => intro hmem t pr; exact ⟨rfl, rfl, rfl⟩
  | cons b rest ih =>
    obtain ⟨bs, be⟩ := b
    intro hmem t pr
    have hb1 : bs ≤ be := hmem (bs, be) (by simp)
    have hrest := ih (fun x hx => hmem x (List.mem_cons_of_mem _ hx))
    obtain ⟨m, hm⟩ : ∃ m, be + 1 - bs = m + 1 := ⟨be - bs, by omega⟩
    have hrender : renderBatch env bs be = .ok (List.range' bs (be + 1 - bs)) := by
      unfold renderBatch
      rw [hr bs be hb1, hm, List.range'_succ]
      rfl
    have hpl := processPages_none_struct env bs (be + 1 - bs) bs 0 (t + 1) pr (by omega)
    have hblocks : ((List.range' bs (be + 1 - bs)).map
        (fun p => pageBlock p (env.ocr p))).isEmpty = false := by
      rw [hm, List.range'_succ]
      rfl
    have hchunk : chunkOf env (bs, be) = String.intercalate "\n"
        ((List.range' bs (be + 1 - bs)).map (fun p => pageBlock p (env.ocr p))) := rfl
    have hclean : cleanBatch env (bs, be)
        = !(List.range' bs (be + 1 - bs)).any (fun p => (extractText (env.ocr p)).2) := rfl
    simp only [runBatches, isSet, Bool.false_eq_true, if_false, hrender]
    rw [hpl]
    simp only [hblocks, Bool.false_eq_true, if_false]
    obtain ⟨ih1, ih2, ih3⟩ := hrest (t + 1 + 3 * (be + 1 - bs)) (pr + (be + 1 - bs))
    refine ⟨?_, ih2, ?_⟩
    · rw [List.map_cons, ih1, hchunk]
    · rw [List.any_cons, ih3, hclean]


theorem processPages_some_eq (env : OcrEnv) (c b : Nat) :
    ∀ imgs i t pr,
      (processPages env (some c) b imgs i t pr).cancelled = false →
      processPages env (some c) b imgs i t pr = processPages env none b imgs i t pr := by
  intro imgs
  induction imgs with
  | nil => intro i t pr _; rfl
  | cons img rest ih =>
    intro i t pr hnc
    by_cases h0 : isSet (some c) t
    · rw [processPages, if_pos h0] at hnc
      cases hnc
    by_cases h1 : isSet (some c) (t + 1)
    · rw [processPages, if_neg h0, if_pos h1] at hnc
      cases hnc
    by_cases h2 : isSet (some c) (t + 2)
    · rw [processPages, if_neg h0, if_neg h1, if_pos h2] at hnc
      cases hnc
    have hrec : (processPages env (some c) b rest (i + 1) (t + 3) (pr + 1)).cancelled
        = false := by
      rw [processPages, if_neg h0, if_neg h1, if_neg h2] at hnc
      exact hnc
    rw [processPages, processPages, if_neg h0, if_neg h1, if_neg h2]
    simp only [isSet, Bool.false_eq_true, if_false]
    rw [ih (i + 1) (t + 3) (pr + 1) hrec]

theorem isSet_none (t : Nat) : isSet none t = false := rfl

theorem runBatches_some_spec (env : OcrEnv) (c : Nat) :
    ∀ (bsl : List (Nat × Nat)) (t pr : Nat),
      (∃ tail, (runBatches env (some c) bsl t pr).outs ++ tail
          = (runBatches env none bsl t pr).outs) ∧
      ((runBatches env (some c) bsl t pr).cancelled = false →
        runBatches env (some c) bsl t pr = runBatches env none bsl t pr) ∧
      ((runBatches env (some c) bsl t pr).cancelled = true →
        (runBatches env (some c) bsl t pr).cstatus = "OCR process cancelled by user."
          ∨ (runBatches env (some c) bsl t pr).cstatus = "OCR cancelled.") := by
  intro bsl
  induction bsl with
  | nil =>
    intro t pr
    exact ⟨⟨[], rfl⟩, fun _ => rfl, fun h => nomatch h⟩
  | cons b rest ih =>
    obtain ⟨bs, be⟩ := b
    intro t pr
    rw [runBatches, runBatches]
    rw [if_neg (show ¬(isSet none t = true) from fun h => nomatch h)]
    by_cases h0 : isSet (some c) t
    · rw [if_pos h0]
      refine ⟨⟨_, List.nil_append _⟩, fun h => ?_, fun _ => ?_⟩
      · simp at h
      · exact Or.inl rfl
    · rw [if_neg h0]
      cases hrender : renderBatch env bs be with
      | error e =>
        dsimp only
        rw [if_neg (show ¬(isSet none (t + 1) = true) from fun h => nomatch h)]
        by_cases h1 : isSet (some c) (t + 1)
        · rw [if_pos h1]
          refine ⟨⟨_, List.nil_append _⟩, fun h => ?_, fun _ => ?_⟩
          · simp at h
          · exact Or.inr rfl
        · rw [if_neg h1]
          obtain ⟨⟨tail, htail⟩, heq, hst⟩ := ih (t + 2) (pr + (be - bs + 1))
          refine ⟨⟨tail, ?_⟩, fun hnc => ?_, fun hcc => ?_⟩
          · simp only [List.cons_append, htail]
          · rw [heq hnc]
          · exact hst hcc
      | ok imgs =>
        dsimp only
        have hpln : (processPages env none bs imgs 0 (t + 1) pr).cancelled = false :=
          processPages_none_flat env bs imgs 0 (t + 1) pr
        rw [if_neg (show ¬((processPages env none bs imgs 0 (t + 1) pr).cancelled = true)
          from by rw [hpln]; exact Bool.false_ne_true)]
        by_cases hplc : (processPages env (some c) bs imgs 0 (t + 1) pr).cancelled
        · rw [if_pos hplc]
          refine ⟨⟨_, List.nil_append _⟩, fun h => ?_, fun _ => ?_⟩
          · simp at h
          · exact Or.inr rfl
        · have hplc0 : (processPages env (some c) bs imgs 0 (t + 1) pr).cancelled
              = false := by simpa using hplc
          rw [if_neg hplc]
          have hpe := processPages_some_eq env c bs imgs 0 (t + 1) pr hplc0
          rw [hpe]
          obtain ⟨⟨tail, htail⟩, heq, hst⟩ :=
            ih (processPages env none bs imgs 0 (t + 1) pr).time
              (processPages env none bs imgs 0 (t + 1) pr).processed
          by_cases hbe : (processPages env none bs imgs 0 (t + 1) pr).blocks.isEmpty
          · rw [if_pos hbe, if_pos hbe]
            exact ⟨⟨tail, htail⟩, heq, hst⟩
          · rw [if_neg hbe, if_neg hbe]
            refine ⟨⟨tail, ?_⟩, fun hnc => ?_, fun hcc => ?_⟩
            · simp only [List.cons_append, htail]
            · rw [heq hnc]
            · exact hst hcc

/-! ## Lemmas about the document model -/

theorem listRemoveFirst_sublist (x : ObjectType) :
    ∀ l : List ObjectType, List.Sublist (listRemoveFirst l x) l := by
  intro l
  induction l with
  | nil => exact List.Sublist.refl _
  | cons a rest ih =>
    rw [listRemoveFirst]
    by_cases h : a = x
    · rw [if_pos h]
      exact List.sublist_cons_self a rest
    · rw [if_neg h]
      exact List.Sublist.cons₂ a ih

theorem removeLoopAux_sublist :
    ∀ (fuel : Nat) (l : List ObjectType) (idx i : Nat),
      List.Sublist (removeLoopAux fuel l idx i) l := by
  intro fuel
  induction fuel with
  | zero => intro l idx i; exact List.Sublist.refl _
  | succ fuel ih =>
    intro l idx i
    rw [removeLoopAux]
    by_cases h : i < l.length
    · rw [dif_pos h]
      by_cases hm : (l.get ⟨i, h⟩).index = idx
      · rw [if_pos hm]
        exact (ih _ _ _).trans (listRemoveFirst_sublist _ l)
      · rw [if_neg hm]
        exact ih l idx (i + 1)
    · rw [dif_neg h]

theorem delete_object_sublist (d : DocumentClass) (idx : Nat) :
    List.Sublist (delete_object d idx).1.objects d.objects :=
  removeLoopAux_sublist d.objects.length d.objects idx 0

theorem delete_object_obj_index (d : DocumentClass) (idx : Nat) :
    (delete_object d idx).1.obj_index = d.obj_index := rfl

/-- The representation invariant of `DocumentClass`: every stored index is
below the `_obj_index` counter and the stored indices are strictly
increasing (hence unique). -/
def DocInv (d : DocumentClass) : Prop :=
  (∀ o ∈ d.objects, o.index < d.obj_index) ∧
  List.Pairwise (· < ·) (d.objects.map (fun o => o.index))

theorem docInv_empty : DocInv emptyDoc :=
  ⟨fun _o ho => (nomatch ho), List.Pairwise.nil⟩

theorem docInv_add (d : DocumentClass) (hd : DocInv d)
    (page : Option Int) (text : String) (coords : Option (List Int)) :
    DocInv (add_object d page text coords) := by
  obtain ⟨hlt, hpw⟩ := hd
  constructor
  · intro o ho
    rcases List.mem_append.mp ho with ho | ho
    · exact Nat.lt_succ_of_lt (hlt o ho)
    · rcases List.mem_singleton.mp ho with rfl
      exact Nat.lt_succ_self _
  · rw [add_object]
    simp only [List.map_append, List.map_cons, List.map_nil]
    rw [List.pairwise_append]
    refine ⟨hpw, List.pairwise_singleton _ _, ?_⟩
    intro a ha b hb
    rcases List.mem_singleton.mp hb with rfl
    obtain ⟨o, ho, rfl⟩ := List.mem_map.mp ha
    exact hlt o ho

theorem docInv_delete (d : DocumentClass) (hd : DocInv d) (idx : Nat) :
    DocInv (delete_object d idx).1 := by
  obtain ⟨hlt, hpw⟩ := hd
  constructor
  · intro o ho
    exact hlt o ((delete_object_sublist d idx).subset ho)
  · exact List.Pairwise.sublist ((delete_object_sublist d idx).map _) hpw

theorem docInv_applyOp (d : DocumentClass) (hd : DocInv d) (op : DocOp) :
    DocInv (applyOp d op) := by
  cases op with
  | addObj p t c => exact docInv_add d hd p t c
  | delObj i => exact docInv_delete d hd i

theorem docInv_applyOps : ∀ (ops : List DocOp) (d : DocumentClass),
    DocInv d → DocInv (applyOps d ops) := by
  intro ops
  induction ops with
  | nil => intro d hd; exact hd
  | cons op rest ih => intro d hd; exact ih (applyOp d op) (docInv_applyOp d hd op)

theorem applyOp_obj_index_le (d : DocumentClass) (op : DocOp) :
    d.obj_index ≤ (applyOp d op).obj_index := by
  cases op with
  | addObj p t c => exact Nat.le_succ _
  | delObj i => exact Nat.le_refl _

theorem applyOps_obj_index_le : ∀ (ops : List DocOp) (d : DocumentClass),
    d.obj_index ≤ (applyOps d ops).obj_index := by
  intro ops
  induction ops with
  | nil => intro d; exact Nat.le_refl _
  | cons op rest ih =>
    intro d
    exact (applyOp_obj_index_le d op).trans (ih (applyOp d op))

theorem assignTrace_lower : ∀ (ops : List DocOp) (d : DocumentClass),
    ∀ x ∈ assignTrace d ops, d.obj_index ≤ x := by
  intro ops
  induction ops with
  | nil => intro d x hx; cases hx
  | cons op rest ih =>
    intro d x hx
    cases op with
    | addObj p t c =>
      rcases List.mem_cons.mp hx with rfl | hx2
      · exact Nat.le_refl _
      · exact Nat.le_of_succ_le (ih (add_object d p t c) x hx2)
    | delObj i =>
      exact ih ((delete_object d i).1) x hx

theorem assignTrace_upper : ∀ (ops : List DocOp) (d : DocumentClass),
    ∀ x ∈ assignTrace d ops, x < (applyOps d ops).obj_index := by
  intro ops
  induction ops with
  | nil => intro d x hx; cases hx
  | cons op rest ih =>
    intro d x hx
    cases op with
    | addObj p t c =>
      rcases List.mem_cons.mp hx with rfl | hx2
      · calc d.obj_index < d.obj_index + 1 := Nat.lt_succ_self _
          _ ≤ (applyOps (add_object d p t c) rest).obj_index :=
            applyOps_obj_index_le rest (add_object d p t c)
      · exact ih (add_object d p t c) x hx2
    | delObj i =>
      exact ih ((delete_object d i).1) x hx

theorem assignTrace_pairwise : ∀ (ops : List DocOp) (d : DocumentClass),
    List.Pairwise (· < ·) (assignTrace d ops) := by
  intro ops
  induction ops with
  | nil => intro d; exact List.Pairwise.nil
  | cons op rest ih =>
    intro d
    cases op with
    | addObj p t c =>
      rw [assignTrace]
      refine List.pairwise_cons.mpr ⟨?_, ih (add_object d p t c)⟩
      intro x hx
      exact Nat.lt_of_lt_of_le (Nat.lt_succ_self _)
        (assignTrace_lower rest (add_object d p t c) x hx)
    | delObj i =>
      exact ih ((delete_object d i).1)

theorem assignTrace_append : ∀ (ops1 ops2 : List DocOp) (d : DocumentClass),
    assignTrace d (ops1 ++ ops2)
      = assignTrace d ops1 ++ assignTrace (applyOps d ops1) ops2 := by
  intro ops1
  induction ops1 with
  | nil => intro ops2 d; rfl
  | cons op rest ih =>
    intro ops2 d
    cases op with
    | addObj p t c =>
      rw [List.cons_append, assignTrace, assignTrace, ih, List.cons_append]
      rfl
    | delObj i =>
      rw [List.cons_append, assignTrace, assignTrace, ih]
      rfl

/-! ## Normalization helper lemmas -/

theorem cleanupText_error (s : String) (h : pyStartsWith s "Error:" = true) :
    cleanupText s = s := by
  rw [cleanupText, if_pos h]

theorem finalPageText_error (s : String) (h : pyStartsWith s "Error:" = true) :
    finalPageText (.pyStr s) = s := by
  rw [finalPageText, extractText, if_pos h]
  exact cleanupText_error s h

theorem cleanBatch_iff (env : OcrEnv) (b : Nat × Nat) :
    cleanBatch env b = true
      ↔ ∀ p ∈ pagesOf b, (extractText (env.ocr p)).2 = false := by
  rw [cleanBatch]
  simp

/-! ## Claim theorems -/

/-- C1: once the cancellation latch is observed set at a checkpoint, the
run ends with a cancelled final status, and the committed outcome is a
prefix of the outcome the uncancelled run would commit: no further batch
is committed after the observation, and a batch interrupted mid-flight —
including the results of its already-completed pages — contributes
nothing. -/
theorem c1_cancellation_aborts_run (env : OcrEnv) (sp ep bsz c : Nat)
    (h : (ocrWorker env sp ep bsz (some c)).cancelled = true) :
    ((ocrWorker env sp ep bsz (some c)).finalStatus = "OCR process cancelled by user."
      ∨ (ocrWorker env sp ep bsz (some c)).finalStatus = "OCR cancelled.") ∧
    ∃ tail, (ocrWorker env sp ep bsz (some c)).output ++ tail
        = (ocrWorker env sp ep bsz none).output := by
  obtain ⟨⟨tail, htail⟩, _, hst⟩ :=
    runBatches_some_spec env c (batches sp ep bsz) 0 0
  have hc : (runBatches env (some c) (batches sp ep bsz) 0 0).cancelled = true := h
  have hfs : (ocrWorker env sp ep bsz (some c)).finalStatus
      = (runBatches env (some c) (batches sp ep bsz) 0 0).cstatus := by
    show (if (runBatches env (some c) (batches sp ep bsz) 0 0).cancelled = true
        then (runBatches env (some c) (batches sp ep bsz) 0 0).cstatus
        else if (runBatches env (some c) (batches sp ep bsz) 0 0).anySuccess = true
          then "OCR process completed."
          else "OCR finished, but encountered errors or no text was processed.") = _
    rw [if_pos hc]
  constructor
  · rw [hfs]
    exact hst hc
  · exact ⟨tail, htail⟩

/-- Witness for C1 at the spec's concrete scenario: on a two-page run with
batch size 1, the latch is set between batch 1's commit and batch 2's
pre-render checkpoint (read index 4): the run is cancelled, the outcome is
exactly batch 1's text, and it is a prefix of the uncancelled outcome. -/
theorem c1_witness :
    (ocrWorker env1 1 2 1 (some 4)).cancelled = true ∧
    (ocrWorker env1 1 2 1 (some 4)).output = ["--- Page 1 ---\nP1\n"] ∧
    (((ocrWorker env1 1 2 1 (some 4)).finalStatus = "OCR process cancelled by user."
        ∨ (ocrWorker env1 1 2 1 (some 4)).finalStatus = "OCR cancelled.") ∧
      ∃ tail, (ocrWorker env1 1 2 1 (some 4)).output ++ tail
          = (ocrWorker env1 1 2 1 none).output) :=
  ⟨by decide, by decide, c1_cancellation_aborts_run env1 1 2 1 4 (by decide)⟩

/-- C2: for a valid range (`1 ≤ startPage ≤ endPage ≤ pageCount`) and a
batch size of at least 1, the engine's partition covers
`[startPage, endPage]` exactly once in ascending page order with batches
of at most `batchSize` pages; an uncancelled run with an honest renderer
commits exactly one chunk per batch, in batch order, with the pages of
each batch in order inside the chunk; and the range `[1, 25]` with batch
size 10 yields exactly the batches `[1-10], [11-20], [21-25]`. -/
theorem c2_batch_partition (sp ep bsz pageCount : Nat) (h1 : 1 ≤ sp)
    (h2 : sp ≤ ep) (h3 : ep ≤ pageCount) (hb : 1 ≤ bsz) :
    flatPages (batches sp ep bsz) = List.range' sp (ep + 1 - sp) ∧
    (∀ b ∈ batches sp ep bsz, b.2 + 1 - b.1 ≤ bsz) ∧
    (∀ env : OcrEnv, honestRender env →
      (ocrWorker env sp ep bsz none).output = (batches sp ep bsz).map (chunkOf env) ∧
      (ocrWorker env sp ep bsz none).cancelled = false) ∧
    batches 1 25 10 = [(1, 10), (11, 20), (21, 25)] := by
  obtain ⟨hcov, hmem⟩ := batches_spec hb (numBatches sp ep bsz) sp ep rfl
  refine ⟨hcov, fun b hbm => (hmem b hbm).2.2.2, fun env hr => ?_, by decide⟩
  obtain ⟨ho, hcanc, _⟩ := runBatches_none_spec env hr (batches sp ep bsz)
    (fun b hbm => (hmem b hbm).2.1) 0 0
  exact ⟨ho, hcanc⟩

/-- Witness for C2 at the spec's concrete range `[1, 25]` with batch size
10, including a committed-output instance over the concrete `env1`. -/
theorem c2_witness :
    ((1:Nat) ≤ 25 ∧ (1:Nat) ≤ 10) ∧
    flatPages (batches 1 25 10) = List.range' 1 (25 + 1 - 1) ∧
    batches 1 25 10 = [(1, 10), (11, 20), (21, 25)] ∧
    (ocrWorker env1 1 25 10 none).output = (batches 1 25 10).map (chunkOf env1) :=
  ⟨⟨by decide, by decide⟩,
   (c2_batch_partition 1 25 10 25 (by decide) (by decide) (by decide) (by decide)).1,
   (c2_batch_partition 1 25 10 25 (by decide) (by decide) (by decide) (by decide)).2.2.2,
   ((c2_batch_partition 1 25 10 25 (by decide) (by decide) (by decide)
      (by decide)).2.2.1 env1 (fun _a _b _h => rfl)).1⟩

/-- C3: in an uncancelled run with an honest renderer, a per-page
recognition failure does not abort the batch or the run: the run stays
uncancelled, every batch is still committed as one chunk containing a
labeled block for every one of its pages, and a page whose backend
outcome is an error string contributes that error annotation verbatim in
its block. -/
theorem c3_page_error_recoverable (env : OcrEnv) (sp ep bsz : Nat)
    (h2 : sp ≤ ep) (hb : 1 ≤ bsz) (hr : honestRender env) :
    (ocrWorker env sp ep bsz none).cancelled = false ∧
    (ocrWorker env sp ep bsz none).output
      = (batches sp ep bsz).map (fun b => String.intercalate "\n"
          ((pagesOf b).map (fun p => pageBlock p (env.ocr p)))) ∧
    ∀ p s, env.ocr p = .pyStr s → pyStartsWith s "Error:" = true →
      pageBlock p (env.ocr p) = "--- Page " ++ toString p ++ " ---\n" ++ s ++ "\n" := by
  obtain ⟨_, hmem⟩ := batches_spec hb (numBatches sp ep bsz) sp ep rfl
  obtain ⟨ho, hcanc, _⟩ := runBatches_none_spec env hr (batches sp ep bsz)
    (fun b hbm => (hmem b hbm).2.1) 0 0
  refine ⟨hcanc, ho, ?_⟩
  intro p s hps herr
  rw [hps, pageBlock, finalPageText_error s herr]

/-- Witness for C3 at the spec's concrete scenario: a 10-page single batch
whose backend fails for page 7 only still commits one chunk and page 7's
block carries the error annotation. -/
theorem c3_witness :
    ((1:Nat) ≤ 10 ∧ envC3.ocr 7 = .pyStr "Error: recognition backend failed") ∧
    (ocrWorker envC3 1 10 10 none).cancelled = false ∧
    (ocrWorker envC3 1 10 10 none).output
      = (batches 1 10 10).map (fun b => String.intercalate "\n"
          ((pagesOf b).map (fun p => pageBlock p (envC3.ocr p)))) ∧
    pageBlock 7 (envC3.ocr 7) = "--- Page 7 ---\nError: recognition backend failed\n" ∧
    (ocrWorker envC3 1 10 10 none).output.length = 1 :=
  ⟨⟨by decide, by decide⟩,
   (c3_page_error_recoverable envC3 1 10 10 (by decide) (by decide)
     (fun _a _b _h => rfl)).1,
   (c3_page_error_recoverable envC3 1 10 10 (by decide) (by decide)
     (fun _a _b _h => rfl)).2.1,
   (c3_page_error_recoverable envC3 1 10 10 (by decide) (by decide)
     (fun _a _b _h => rfl)).2.2 7 "Error: recognition backend failed"
     (by decide) (by decide),
   by decide⟩

/-- C4: response normalization detects the shape in the fixed priority
order — plain string, object `.content`, object `.text`,
`.choices[0].message.content` — stringifies an unrecognized shape instead
of failing, and strips wrapping fences and a leading "```text" tag; in
particular the OpenAI-style `Hello` object and the fenced literal
normalize to `Hello`. -/
theorem c4_normalization_priority (c : String) (hc : c ≠ "") :
    (∀ s, finalPageText (.pyStr s) = cleanupText s) ∧
    (∀ t ch r, finalPageText (.obj (some c) t ch r) = cleanupText c) ∧
    (∀ ch r, finalPageText (.obj none (some c) ch r) = cleanupText c) ∧
    (∀ tx sr rest r, finalPageText
        (.obj none none (some ((⟨some ⟨some c⟩, tx, sr⟩ : Choice) :: rest)) r)
      = cleanupText c) ∧
    (∀ r, finalPageText (.obj none none none r) = cleanupText r) ∧
    (∀ r, finalPageText (.obj none none (some []) r) = cleanupText r) ∧
    finalPageText (.obj none none
        (some [⟨some ⟨some "Hello"⟩, none, "choicerepr"⟩]) "objrepr") = "Hello" ∧
    finalPageText (.pyStr "```text\nHello\n```") = "Hello" := by
  have hstr : ∀ s, finalPageText (.pyStr s) = cleanupText s := by
    intro s
    rw [finalPageText, extractText]
    by_cases hs : pyStartsWith s "Error:"
    · rw [if_pos hs]
    · rw [if_neg hs]
  refine ⟨hstr, fun t ch r => rfl, fun ch r => rfl, ?_, fun r => rfl,
    fun r => rfl, by decide, by decide⟩
  intro tx sr rest r
  have hct : choiceText (⟨some ⟨some c⟩, tx, sr⟩ : Choice) = c := by
    dsimp only [choiceText, Option.bind]
    rw [if_neg hc]
  show cleanupText (choiceText (⟨some ⟨some c⟩, tx, sr⟩ : Choice)) = cleanupText c
  rw [hct]

/-- Witness for C4 with the nonempty content `Hello`, covering both of the
spec's concrete normalization examples. -/
theorem c4_witness :
    ("Hello" ≠ "") ∧
    finalPageText (.obj none none
        (some [⟨some ⟨some "Hello"⟩, none, "choicerepr"⟩]) "objrepr") = "Hello" ∧
    finalPageText (.pyStr "```text\nHello\n```") = "Hello" :=
  ⟨by decide,
   (c4_normalization_priority "Hello" (by decide)).2.2.2.2.2.2.1,
   (c4_normalization_priority "Hello" (by decide)).2.2.2.2.2.2.2⟩

/-- C5: starting from a fresh document, over any sequence of `add_object`
and `delete_object` calls the assigned indices are strictly increasing
(hence unique), every stored object's index is strictly below the internal
`_obj_index` counter, the stored indices remain strictly increasing, and
any index assigned by a later call sequence strictly exceeds every index
assigned before — so a freed index is never reassigned. -/
theorem c5_index_monotonic (ops : List DocOp) :
    List.Pairwise (· < ·) (assignTrace emptyDoc ops) ∧
    (∀ o ∈ (applyOps emptyDoc ops).objects,
      o.index < (applyOps emptyDoc ops).obj_index) ∧
    List.Pairwise (· < ·) ((applyOps emptyDoc ops).objects.map (fun o => o.index)) ∧
    ∀ ops2 : List DocOp, ∀ y ∈ assignTrace emptyDoc ops,
      ∀ x ∈ assignTrace (applyOps emptyDoc ops) ops2, y < x := by
  have hinv := docInv_applyOps ops emptyDoc docInv_empty
  refine ⟨assignTrace_pairwise ops emptyDoc, hinv.1, hinv.2, ?_⟩
  intro ops2 y hy x hx
  exact Nat.lt_of_lt_of_le (assignTrace_upper ops emptyDoc y hy)
    (assignTrace_lower ops2 (applyOps emptyDoc ops) x hx)

/-- C6 counterexample: over pages 1-2 with batch size 1 and a backend that
fails for page 2 only, a page error occurs (page 2's committed block is
the error annotation and its error flag was raised), yet the run reports
the clean-completion status — the flag records "some batch succeeded", not
"no error occurred". -/
theorem c6_counterexample :
    (extractText (envC6.ocr 2)).2 = true ∧
    (ocrWorker envC6 1 2 1 none).output
      = ["--- Page 1 ---\nok\n", "--- Page 2 ---\nError: boom\n"] ∧
    (ocrWorker envC6 1 2 1 none).finalStatus = "OCR process completed." :=
  ⟨by decide, by decide, by decide⟩

/-- C6 (amended): a run that finishes without cancellation reports one of
the two completion statuses, and the clean-completion status is reported
exactly when the cumulative any-successful-batch flag is set — that is,
when at least one committed batch had no page errors — rather than when no
page or batch error occurred at all. -/
theorem c6_completion_status (env : OcrEnv) (sp ep bsz : Nat)
    (h2 : sp ≤ ep) (hb : 1 ≤ bsz) (hr : honestRender env) :
    (ocrWorker env sp ep bsz none).cancelled = false ∧
    ((ocrWorker env sp ep bsz none).finalStatus = "OCR process completed."
      ↔ ∃ b ∈ batches sp ep bsz,
          ∀ p ∈ pagesOf b, (extractText (env.ocr p)).2 = false) ∧
    ((ocrWorker env sp ep bsz none).finalStatus = "OCR process completed."
      ∨ (ocrWorker env sp ep bsz none).finalStatus
          = "OCR finished, but encountered errors or no text was processed.") := by
  obtain ⟨_, hmem⟩ := batches_spec hb (numBatches sp ep bsz) sp ep rfl
  obtain ⟨_, hcanc, hany⟩ := runBatches_none_spec env hr (batches sp ep bsz)
    (fun b hbm => (hmem b hbm).2.1) 0 0
  have hfs : (ocrWorker env sp ep bsz none).finalStatus
      = if (batches sp ep bsz).any (cleanBatch env) then "OCR process completed."
        else "OCR finished, but encountered errors or no text was processed." := by
    show (if (runBatches env none (batches sp ep bsz) 0 0).cancelled = true
        then (runBatches env none (batches sp ep bsz) 0 0).cstatus
        else if (runBatches env none (batches sp ep bsz) 0 0).anySuccess = true
          then "OCR process completed."
          else "OCR finished, but encountered errors or no text was processed.") = _
    rw [if_neg (by rw [hcanc]; exact Bool.false_ne_true), hany]
  refine ⟨hcanc, ?_, ?_⟩
  · rw [hfs]
    constructor
    · intro hA
      by_cases ha : (batches sp ep bsz).any (cleanBatch env)
      · obtain ⟨b, hbm, hcb⟩ := List.any_eq_true.mp ha
        exact ⟨b, hbm, (cleanBatch_iff env b).mp hcb⟩
      · rw [if_neg ha] at hA
        exact absurd hA (by decide)
    · intro hex
      obtain ⟨b, hbm, hall⟩ := hex
      have ha : (batches sp ep bsz).any (cleanBatch env) = true :=
        List.any_eq_true.mpr ⟨b, hbm, (cleanBatch_iff env b).mpr hall⟩
      rw [if_pos ha]
  · rw [hfs]
    by_cases ha : (batches sp ep bsz).any (cleanBatch env)
    · rw [if_pos ha]
      exact Or.inl rfl
    · rw [if_neg ha]
      exact Or.inr rfl

/-- Witness for the amended C6 on the concrete two-page environment with a
page-2 error: the run is uncancelled and reports a completion status. -/
theorem c6_witness :
    ((1:Nat) ≤ 2) ∧
    (ocrWorker envC6 1 2 1 none).cancelled = false ∧
    ((ocrWorker envC6 1 2 1 none).finalStatus = "OCR process completed."
      ∨ (ocrWorker envC6 1 2 1 none).finalStatus
          = "OCR finished, but encountered errors or no text was processed.") :=
  ⟨by decide,
   (c6_completion_status envC6 1 2 1 (by decide) (by decide) (fun _a _b _h => rfl)).1,
   (c6_completion_status envC6 1 2 1 (by decide) (by decide) (fun _a _b _h => rfl)).2.2⟩

/-- C7 counterexample: `detect_type` on a `.docx` file — a recognized
format — with its conversion tooling unavailable silently succeeds with
zero pages instead of raising the fatal configuration error the claim
demands. -/
theorem c7_counterexample :
    detect_type envNoTools "doc.docx" = .ok ("DOCX", 0) :=
  by decide

/-- C7 (amended): for the import-guarded formats PDF, PPTX and TIFF,
`detect_type` with the required tooling unavailable raises the remediation
`RuntimeError`; for DOCX, ODT and RTF every conversion failure — missing
tooling included — is swallowed and the document silently degrades to zero
pages with its file type still set. -/
theorem c7_tooling_errors (env : DetectEnv) (p : String) :
    (pyLower (pathSuffix p) = ".pdf" → env.pdf2imageAvailable = false →
      detect_type env p = .error "Install pdf2image and Poppler to handle PDFs.") ∧
    (pyLower (pathSuffix p) = ".pptx" → env.pptxAvailable = false →
      detect_type env p = .error "Install python-pptx to handle PPTX.") ∧
    ((pyLower (pathSuffix p) = ".tif" ∨ pyLower (pathSuffix p) = ".tiff") →
      env.pillowAvailable = false →
      detect_type env p = .error "Install Pillow to handle TIFF.") ∧
    ((pyLower (pathSuffix p) = ".docx" ∨ pyLower (pathSuffix p) = ".odt"
        ∨ pyLower (pathSuffix p) = ".rtf") → env.docxConvertOk = false →
      detect_type env p = .ok (pyUpper (lstripDots (pyLower (pathSuffix p))), 0)) := by
  refine ⟨?_, ?_, ?_, ?_⟩
  · intro hext hav
    simp only [detect_type]
    rw [hext, hav]
    rfl
  · intro hext hav
    simp only [detect_type]
    rw [hext, hav]
    rfl
  · intro hext hav
    rcases hext with hext | hext <;>
      · simp only [detect_type]
        rw [hext, hav]
        rfl
  · intro hext hav
    rcases hext with hext | hext | hext <;>
      · simp only [detect_type]
        rw [hext, hav]
        rfl

/-- Witness for the amended C7: with no tooling available, a `.pdf` path
raises the remediation error while a `.odt` path silently reports zero
pages. -/
theorem c7_witness :
    (pyLower (pathSuffix "a.pdf") = ".pdf" ∧ envNoTools.pdf2imageAvailable = false
      ∧ pyLower (pathSuffix "b.odt") = ".odt" ∧ envNoTools.docxConvertOk = false) ∧
    detect_type envNoTools "a.pdf"
      = .error "Install pdf2image and Poppler to handle PDFs." ∧
    detect_type envNoTools "b.odt"
      = .ok (pyUpper (lstripDots (pyLower (pathSuffix "b.odt"))), 0) :=
  ⟨⟨by decide, rfl, by decide, rfl⟩,
   (c7_tooling_errors envNoTools "a.pdf").1 (by decide) rfl,
   (c7_tooling_errors envNoTools "b.odt").2.2.2 (Or.inr (Or.inl (by decide))) rfl⟩

/-- C8 counterexample: a path with the unrecognized extension `.xyz` gets
file type `"XYZ"` — the uppercased extension — not the literal `"UNKNOWN"`
the claim states (the page count is still zero and no error is raised). -/
theorem c8_counterexample :
    detect_type envNoTools "file.xyz" = .ok ("XYZ", 0)
      ∧ ("XYZ" : String) ≠ "UNKNOWN" :=
  ⟨by decide, by decide⟩

/-- C8 (amended): for any path whose extension is not one of the
recognized formats, `detect_type` does not fail: it reports zero pages and
sets the file type to the uppercased dot-stripped extension, using the
literal `"UNKNOWN"` only when that string is empty. -/
theorem c8_unknown_extension (env : DetectEnv) (p : String)
    (h : recognizedExt (pyLower (pathSuffix p)) = false) :
    detect_type env p
      = .ok (if pyUpper (lstripDots (pyLower (pathSuffix p))) = ""
          then "UNKNOWN" else pyUpper (lstripDots (pyLower (pathSuffix p))), 0) := by
  have h' : ¬(pyLower (pathSuffix p) = ".pdf")
      ∧ ¬(pyLower (pathSuffix p) = ".pptx")
      ∧ ¬(pyLower (pathSuffix p) = ".tif" ∨ pyLower (pathSuffix p) = ".tiff")
      ∧ ¬(pyLower (pathSuffix p) = ".docx" ∨ pyLower (pathSuffix p) = ".odt"
          ∨ pyLower (pathSuffix p) = ".rtf") := by
    simp only [recognizedExt, decide_eq_false_iff_not] at h
    tauto
  simp only [detect_type]
  rw [if_neg h'.1, if_neg h'.2.1, if_neg h'.2.2.1, if_neg h'.2.2.2]

/-- Witness for the amended C8 at the concrete path `file.xyz`. -/
theorem c8_witness :
    recognizedExt (pyLower (pathSuffix "file.xyz")) = false ∧
    detect_type envNoTools "file.xyz"
      = .ok (if pyUpper (lstripDots (pyLower (pathSuffix "file.xyz"))) = ""
          then "UNKNOWN" else pyUpper (lstripDots (pyLower (pathSuffix "file.xyz"))), 0) :=
  ⟨by decide, c8_unknown_extension envNoTools "file.xyz" (by decide)⟩

/-- C9: with both page-range entries empty and a document of at least one
page, `run_ocr` accepts the request without any validation error and
defaults the range to the full document, pages 1 through `totalPages`. -/
theorem c9_default_full_range (totalPages : Nat) (h : 1 ≤ totalPages) :
    run_ocr_validate totalPages "" "" = .ok (1, (totalPages : Int)) := by
  rw [run_ocr_validate, if_neg (by omega)]
  rw [if_pos ⟨rfl, rfl⟩]

/-- Witness for C9 on a three-page document. -/
theorem c9_witness :
    (1:Nat) ≤ 3 ∧ run_ocr_validate 3 "" "" = .ok (1, 3) :=
  ⟨by decide, c9_default_full_range 3 (by decide)⟩

/-- C10: a page text that is an error annotation (it begins with
"Error:") skips the whitespace-trimming and fence-stripping cleanup
entirely, so the error message appears verbatim inside the page's labeled
block. -/
theorem c10_error_text_verbatim (s : String) (n : Nat)
    (h : pyStartsWith s "Error:" = true) :
    cleanupText s = s ∧ extractText (.pyStr s) = (s, true) ∧
    pageBlock n (.pyStr s) = "--- Page " ++ toString n ++ " ---\n" ++ s ++ "\n" := by
  refine ⟨cleanupText_error s h, ?_, ?_⟩
  · rw [extractText, if_pos h]
  · rw [pageBlock, finalPageText_error s h]

/-- Witness for C10 with the concrete annotation `Error: boom` on page
7 — note the untouched whitespace would otherwise be stripped. -/
theorem c10_witness :
    pyStartsWith "Error: boom" "Error:" = true ∧
    cleanupText "Error: boom" = "Error: boom" ∧
    pageBlock 7 (.pyStr "Error: boom") = "--- Page 7 ---\nError: boom\n" :=
  ⟨by decide, (c10_error_text_verbatim "Error: boom" 7 (by decide)).1,
   (c10_error_text_verbatim "Error: boom" 7 (by decide)).2.2⟩
